import Mathlib

/-!
Shallow embedding of `run_evaluation.py` (EduVisBench evaluation driver).

External collaborators of the script (the OpenAI HTTP client, `json.loads`,
`base64.b64encode`, the filesystem) are modelled as explicit function
parameters collected in an `Env` value; everything else (the response
parser, the four evaluation request builders, the per-question batch loop)
is translated line by line from the source.  Python strings are modelled as
`String` / `List Char` (code points), Python `None` as `Option`, exceptions
as `Except`.
-/

/-- The two brace characters, written by code point to keep string literals
plain. `lbrace` is U+007B and `rbrace` is U+007D. -/
def lbrace : Char := Char.ofNat 123

/-- Closing brace character U+007D. -/
def rbrace : Char := Char.ofNat 125

/-- Double-quote character, used to spell JSON sample strings as char lists. -/
def dquote : Char := Char.ofNat 34

/-- Python `s.find(c)`: index of the first occurrence of `c` in `s`, `-1` when
absent. -/
def firstIndexOf (s : List Char) (c : Char) : Int :=
  match s with
  | [] => -1
  | x :: xs =>
    if x = c then 0
    else
      let r := firstIndexOf xs c
      if 0 ≤ r then r + 1 else -1

/-- Python `s.rfind(c)`: index of the last occurrence of `c` in `s`, `-1` when
absent. -/
def lastIndexOf (s : List Char) (c : Char) : Int :=
  match s with
  | [] => -1
  | x :: xs =>
    let r := lastIndexOf xs c
    if 0 ≤ r then r + 1
    else if x = c then 0 else -1

/-- Python slicing `s[a:b]` for `0 ≤ a ≤ b`. -/
def pySlice (s : List Char) (a b : Nat) : List Char :=
  (s.take b).drop a

/-- Python `s.strip()` (default whitespace stripping). -/
def pyStrip (s : List Char) : List Char :=
  ((s.dropWhile Char.isWhitespace).reverse.dropWhile Char.isWhitespace).reverse

/-- Characters of `s` lowercased, modelling Python `s.lower()` on the ASCII
names handled by the script. -/
def lowerChars (s : String) : List Char :=
  s.data.map Char.toLower

/-- Model of `os.path.join` for the relative-path shapes the script builds. -/
def pathJoin (a b : String) : String :=
  a ++ "/" ++ b

/-- JSON values, as returned by the (external) `json.loads`. JSON numbers are
restricted to integers, which covers every value the rubric contract admits. -/
inductive JsonVal where
  | obj (fields : List (String × JsonVal))
  | arr (elems : List JsonVal)
  | str (s : String)
  | num (n : Int)
  | bool (b : Bool)
  | null
deriving Repr

/-- Python truthiness of a parsed JSON value (`{}`, `[]`, `""`, `0`, `False`,
`None` are falsy). -/
def truthy : JsonVal → Bool
  | .obj fields => !fields.isEmpty
  | .arr elems => !elems.isEmpty
  | .str s => !(s = "")
  | .num n => !(n = 0)
  | .bool b => b
  | .null => false

/-- Python truthiness of an optional parsed JSON value (`None` is falsy). -/
def optTruthy : Option JsonVal → Bool
  | none => false
  | some v => truthy v

/-- One step of Python `sum` over dict values: adding a JSON value to an
integer accumulator succeeds on numbers and booleans and raises `TypeError`
(here: `none`) on anything else. -/
def addJsonVal (acc : Int) : JsonVal → Option Int
  | .num n => some (acc + n)
  | .bool b => some (acc + (if b then 1 else 0))
  | _ => none

/-- Python `sum(scores.values())` over the fields of a JSON object, in field
order; `none` models the `TypeError` raised on a non-numeric value. -/
def pySumValues (fields : List (String × JsonVal)) : Option Int :=
  fields.foldl (fun acc kv => acc.bind (fun a => addJsonVal a kv.2)) (some 0)

/-- One element of the `content` list of the chat request ("text" or
"image_url" part). -/
inductive ContentPart where
  | text (s : String)
  | image_url (url : String)
deriving Repr

/-- The external collaborators of the script, made explicit:
- `script_dir` models `SCRIPT_DIR`;
- `readFile` models `open(path, "rb").read()` (`none` = the exceptions the
  script catches around it);
- `b64encode` models `base64.b64encode(...).decode("utf-8")`;
- `isdir`, `listdir`, `isfile` model the `os` calls;
- `call` models `client.chat.completions.create` followed by
  `resp.choices[0].message.content` (`Except.error` = `OpenAIError` or any
  other exception raised by the request);
- `jsonLoads` models `json.loads` (`none` = `json.JSONDecodeError`). -/
structure Env where
  script_dir : String
  readFile : String → Option (List Nat)
  b64encode : List Nat → String
  isdir : String → Bool
  listdir : String → List String
  isfile : String → Bool
  call : List ContentPart → Except String String
  jsonLoads : List Char → Option JsonVal

/-- Model of `os.path.splitext(p)[1].lower()`: the lowercased extension of `p`
(from the last dot on), `[]` when there is no dot. -/
def extOf (p : String) : List Char :=
  let cs := p.data
  let j := lastIndexOf cs '.'
  if 0 ≤ j then (cs.drop j.toNat).map Char.toLower else []

/-- MIME type chosen by `encode_image_to_data_url`. -/
def mimeFor (p : String) : String :=
  if extOf p = ['.', 'j', 'p', 'g'] ∨ extOf p = ['.', 'j', 'p', 'e', 'g'] then
    "image/jpeg"
  else "image/png"

/-- Embeds `encode_image_to_data_url`: read an image file and return a data URL for
embedding; `none` on any read failure (the function catches and logs). -/
def encode_image_to_data_url (env : Env) (image_path : String) : Option String :=
  match env.readFile image_path with
  | none => none
  | some raw_bytes =>
    some ("data:" ++ mimeFor image_path ++ ";base64," ++ env.b64encode raw_bytes)

/-- Embeds `parse_gpt_response`: extract the JSON object embedded in the model's raw
response string.  The slice runs from the first `lbrace` to the last `rbrace`
(inclusive); on a missing span or a `json.loads` failure the function returns
`none`. -/
def parse_gpt_response (jl : List Char → Option JsonVal) (response_content : List Char) :
    Option JsonVal :=
  let start_index := firstIndexOf response_content lbrace
  let end_index := lastIndexOf response_content rbrace + 1
  if start_index ≠ -1 ∧ end_index ≠ -1 ∧ end_index > start_index then
    jl (pySlice response_content start_index.toNat end_index.toNat)
  else none

/-- The constant `BENCHMARK_GUIDELINES`: the fixed five-category rubric text sent with
every request (verbatim from the script, including surrounding whitespace). -/
def BENCHMARK_GUIDELINES : String :=
  "\n    Category I: Visual Scenario Design Guidance\n    Level 1: The image contains no scenes or illustrations, presenting only text and formulas with no contextual visual cues, failing to engage interest or connect mathematical concepts to real-world contexts.\n    Level 2: The image includes a single static illustration or low-fidelity mockup with minimal labeling that does not highlight variables or key objects, offering limited context and poor immersion.\n    Level 3: Multiple static schematic diagrams or sketch-style illustrations appear in the image, labeling core objects, variables, and simple steps, providing basic visual guidance but lacking layered coherence.\n    Level 4: The image integrates scenario illustrations, storyboard panels, and infographics to present the process in multiple views and steps, with annotations and captions guiding students through mapping abstract concepts to context.\n    Level 5: Storyboard-style illustrations and infographics are fused into a single image, including overview, detailed close-ups, and key pathway diagrams with comprehensive annotations, allowing students to grasp the entire flow and conceptual network at a glance.\n\n    Category II: Visual Illustration Design\n    Level 1: The image contains no charts, axes, or flow diagrams—only text. Without embedded visual tools, students cannot systematically organize or analyze quantities and relationships.\n    Level 2: The image includes a single black-and-white bar chart or simple flow diagram, but scales and labels are incomplete, making variable relationships unclear and visual support minimal.\n    Level 3: The image presents a static number line and colored bar chart with complete scales and legends, helping students grasp basic numerical changes visually, though comparison and context layering are absent.\n    Level 4: The image combines number lines, flowcharts, infographics, and arrow annotations; multiple visuals are juxtaposed or overlaid to show processes and variable changes for a coherent modeling view.\n    Level 5: The image presents a dashboard-style visualization integrating axes, bar charts, flow diagrams, heatmaps, etc., with linked elements that deeply visualize data relationships and model structure.\n\n    Category III: Text–Illustration Coordination\n    Level 1: Text and illustrations in the image are completely disconnected, with no labels, legends, or connectors—students cannot use visuals to understand text or formulas.\n    Level 2: Text occasionally prompts “see diagram” or “refer to the illustration,” but the image lacks legends or clear labels, so mapping between text and graphics remains ambiguous.\n    Level 3: Text descriptions and image elements share consistent numbering, color blocks, or arrows linked to a simple legend, explaining core symbols and variables to support initial mapping.\n    Level 4: Text paragraphs are laid out alongside corresponding visuals within the same image, with detailed legends and color-coded annotations enabling simultaneous reading and mapping.\n    Level 5: Text, formulas, and legends are fully integrated in one image, using consistent colors, numbering, and layered layout to achieve seamless text–graphic fusion for complete structural understanding.\n\n    Category IV: Learning Thought Guidance\n    Level 1: The image offers no visualized problem-solving guidance, showing only the problem statement and formulas, leaving students without strategic cues or reflection prompts.\n    Level 2: The image embeds a simple flowchart or two title-style hints (e.g., “Identify problem type,” “Check result”), but the flowchart is overly simplistic and hints lack hierarchical detail.\n    Level 3: The image displays a step-by-step flowchart template with key thinking nodes and self-check checkpoints, leaving annotation space for students to visually record their reasoning.\n    Level 4: The image combines a near-transfer exercise with a comparative thought diagram, visually highlighting strategy differences so students can apply existing reasoning to a new context.\n    Level 5: The image fuses near- and far-transfer exercises, concept mind maps, and a reflection panel into a dashboard-style layout, allowing students to review and extend their problem-solving network visually.\n\n    Category V: Interactivity and Personalized Support\n    Level 1: The image includes no feedback or support components—only a static problem statement and answer field—offering no hints, examples, or error cues and resulting in a nonresponsive visual.\n    Level 2: The image shows fixed hint boxes (e.g., “Hint: draw a number line,” “Hint: check rounding”), but hints are not tailored to student responses, limiting personalized guidance.\n    Level 3: The image integrates multiple static correction tips and example solution modules (common mistakes and standard approaches), which students can reference visually but without intelligent recommendations.\n    Level 4: The image presents example solution workflows, text hints, and a common-errors analysis section highlighted with color blocks and arrows, providing diverse visual support in a single layout.\n    Level 5: The image displays a comprehensive visual support panel with difficulty suggestions, personalized hints, worked examples, and extension resource links, enabling students to select tailored guidance directly from the visual layout.\n"

/-- The value `BENCHMARK_GUIDELINES.strip()` as a string. -/
def guidelinesStripped : String :=
  String.mk (pyStrip BENCHMARK_GUIDELINES.data)

/-- The shared JSON-format sample appended to every closing instruction
(`\x7b` / `\x7d` are the two braces). -/
def jsonSample : String :=
  "Return ONLY a JSON object like \x7b\"1\":0,\"2\":1,\"3\":2,\"4\":3,\"5\":4\x7d."

/-- Closing instruction of `evaluate_image_q_single_a`. -/
def instrImageSingle : String :=
  "Assign integer scores 0–5 for categories 1–5. " ++
  "0 = completely missing or very poor; 5 = fully meets highest level. " ++ jsonSample

/-- Closing instruction of `evaluate_image_q_multiple_a`. -/
def instrImageMultiple : String :=
  "Based on the problem image and all student visual responses above, assign integer scores 0–5 for categories 1–5. " ++
  "0 = completely missing or very poor; 5 = fully meets highest level. " ++ jsonSample

/-- Closing instruction of `evaluate_text_q_single_a`. -/
def instrTextSingle : String :=
  "Based on the question text and the answer screenshot, assign integer scores 0–5 for categories 1–5. " ++
  "0 = completely missing or very poor; 5 = fully meets highest level. " ++ jsonSample

/-- Closing instruction of `evaluate_text_q_multiple_a`. -/
def instrTextMultiple : String :=
  "Based on the question text and all student visual responses above, assign integer scores 0–5 for categories 1–5. " ++
  "0 = completely missing or very poor; 5 = fully meets highest level. " ++ jsonSample

/-- Outcome of one evaluation function: the Python pair
`(scores_or_None, error_or_None)` plus `requests`, an instrumentation counter
recording how many times `client.chat.completions.create` was reached. -/
structure EvalResult where
  scores : Option JsonVal
  err : Option String
  requests : Nat
deriving Repr

/-- The shared tail of all four evaluation functions: send the assembled
content to the model, strip the reply, parse it, and pair the scores with
`None if scores else "Failed to parse scores from GPT response."`; an
exception from the request is converted into an error message. -/
def completeRequest (env : Env) (parts : List ContentPart) : EvalResult :=
  match env.call parts with
  | .ok raw =>
    let content := pyStrip raw.data
    let scores := parse_gpt_response env.jsonLoads content
    { scores := scores
      err := if optTruthy scores then none
             else some "Failed to parse scores from GPT response."
      requests := 1 }
  | .error e => { scores := none, err := some ("OpenAI API error: " ++ e), requests := 1 }

/-- The answer-image encoding loop shared by the two `*_multiple_a`
functions: encode each answer image in order, stopping at the first failure
with the error message of the source. -/
def encodeAnswerParts (env : Env) : List String → Except String (List ContentPart)
  | [] => .ok []
  | ans_path :: rest =>
    match encode_image_to_data_url env ans_path with
    | some ans_url => (encodeAnswerParts env rest).map (ContentPart.image_url ans_url :: ·)
    | none => .error ("Failed to encode an answer image: " ++ ans_path)

/-- Embeds `evaluate_image_q_single_a`: image question against a single answer
image. -/
def evaluate_image_q_single_a (env : Env) (question_image_path answer_image_path : String) :
    EvalResult :=
  let q_url := encode_image_to_data_url env question_image_path
  let a_url := encode_image_to_data_url env answer_image_path
  match q_url, a_url with
  | some qu, some au =>
    completeRequest env
      [ContentPart.text guidelinesStripped,
       ContentPart.text "Problem image:",
       ContentPart.image_url qu,
       ContentPart.text "Answer screenshot:",
       ContentPart.image_url au,
       ContentPart.text instrImageSingle]
  | _, _ => { scores := none, err := some "Failed to encode one or both images.", requests := 0 }

/-- Embeds `evaluate_image_q_multiple_a`: image question against multiple answer
images. -/
def evaluate_image_q_multiple_a (env : Env) (question_image_path : String)
    (answer_image_paths : List String) : EvalResult :=
  match encode_image_to_data_url env question_image_path with
  | none => { scores := none, err := some "Failed to encode question image.", requests := 0 }
  | some qu =>
    match encodeAnswerParts env answer_image_paths with
    | .error msg => { scores := none, err := some msg, requests := 0 }
    | .ok ansParts =>
      completeRequest env
        ([ContentPart.text guidelinesStripped,
          ContentPart.text "Problem image:",
          ContentPart.image_url qu,
          ContentPart.text "Student visual responses (multiple answer images follow):"]
         ++ ansParts ++ [ContentPart.text instrImageMultiple])

/-- Embeds `evaluate_text_q_single_a`: text question against a single answer
image. -/
def evaluate_text_q_single_a (env : Env) (question_text answer_image_path : String) :
    EvalResult :=
  match encode_image_to_data_url env answer_image_path with
  | none => { scores := none, err := some "Failed to encode answer image.", requests := 0 }
  | some au =>
    completeRequest env
      [ContentPart.text guidelinesStripped,
       ContentPart.text ("Question:\n" ++ question_text),
       ContentPart.text "Answer screenshot:",
       ContentPart.image_url au,
       ContentPart.text instrTextSingle]

/-- Embeds `evaluate_text_q_multiple_a`: text question against multiple answer
images. -/
def evaluate_text_q_multiple_a (env : Env) (question_text : String)
    (answer_image_paths : List String) : EvalResult :=
  match encodeAnswerParts env answer_image_paths with
  | .error msg => { scores := none, err := some msg, requests := 0 }
  | .ok ansParts =>
    completeRequest env
      ([ContentPart.text guidelinesStripped,
        ContentPart.text ("Question:\n" ++ question_text),
        ContentPart.text "Student visual responses (multiple answer images follow):"]
       ++ ansParts ++ [ContentPart.text instrTextMultiple])

/-- The answer-image extension set
`('.png', '.jpg', '.jpeg', '.gif', '.bmp')` as lowercase char lists. -/
def ANSWER_IMAGE_EXTS : List (List Char) :=
  [['.', 'p', 'n', 'g'], ['.', 'j', 'p', 'g'], ['.', 'j', 'p', 'e', 'g'],
   ['.', 'g', 'i', 'f'], ['.', 'b', 'm', 'p']]

/-- The question-image extension set `('.png', '.jpg', '.jpeg')` used on
line 328 of the script. -/
def QUESTION_IMAGE_EXTS : List (List Char) :=
  [['.', 'p', 'n', 'g'], ['.', 'j', 'p', 'g'], ['.', 'j', 'p', 'e', 'g']]

/-- Model of `f.lower().endswith(('.png', '.jpg', '.jpeg', '.gif', '.bmp'))`: the
filter applied to answer-directory entries. -/
def hasImageExt (f : String) : Bool :=
  ANSWER_IMAGE_EXTS.any (fun e => e.isSuffixOf (lowerChars f))

/-- Model of `question_content.lower().endswith(('.png', '.jpg', '.jpeg'))`: the
modality test of line 328 (`isinstance(question_content, str)` always holds
in this model, where the question field is a string when present). -/
def isImageQuestionStr (q : String) : Bool :=
  QUESTION_IMAGE_EXTS.any (fun e => e.isSuffixOf (lowerChars q))

/-- The AnswerSet resolution of lines 314–318: list the answer folder, keep
names with a recognized image extension, join each with the folder, and sort
the result. -/
def resolveAnswerImages (env : Env) (answer_folder_path : String) : List String :=
  List.insertionSort (· ≤ ·)
    (((env.listdir answer_folder_path).filter hasImageExt).map (pathJoin answer_folder_path))

/-- One element of the loaded questions JSON: the three fields the loop reads
via `.get`; `none` models an absent key. -/
structure QuestionItem where
  id : Option String
  question : Option String
  subject : Option String
deriving Repr

/-- The per-question output record assembled by `main`. -/
structure ResultEntry where
  question_id : String
  subject : String
  question_raw : String
  question_type : Option String
  question_path_or_text : Option String
  answer_image_paths : List String
  num_answer_images : Nat
  category_scores : Option JsonVal
  total_score : Int
  error_message : Option String
deriving Repr

/-- The freshly initialized `result_entry` dict of lines 294–305. -/
def mkBaseEntry (question_id subject question_raw : String) : ResultEntry :=
  { question_id := question_id
    subject := subject
    question_raw := question_raw
    question_type := none
    question_path_or_text := none
    answer_image_paths := []
    num_answer_images := 0
    category_scores := none
    total_score := 0
    error_message := none }

/-- Lines 356–364: fold an evaluation outcome `(scores, err)` into the result
entry.  `if err:` records the error; `elif scores:` (truthy) stores the scores
and computes `sum(scores.values()) if isinstance(scores, dict) else 0`, where
a non-numeric dict value makes `sum` raise an uncaught `TypeError`
(modelled as `Except.error`); otherwise a fallback error is recorded. -/
def applyOutcome (e : ResultEntry) (scores : Option JsonVal) (err : Option String) :
    Except String ResultEntry :=
  match err with
  | some m => .ok { e with error_message := some m }
  | none =>
    match scores with
    | some v =>
      if truthy v then
        match v with
        | .obj fields =>
          match pySumValues fields with
          | some t => .ok { e with category_scores := some v, total_score := t }
          | none => .error "TypeError: unsupported operand type(s) for +"
        | _ => .ok { e with category_scores := some v, total_score := 0 }
      else .ok { e with error_message := some "Evaluation completed but no scores were returned." }
    | none => .ok { e with error_message := some "Evaluation completed but no scores were returned." }

/-- The body of the loop of `main` for a record that passed the id/question
validity check (lines 292–367): resolve the answer folder and images,
classify the question modality, dispatch the matching evaluation function,
and fold the outcome into the entry. -/
def processValidItem (env : Env) (answers_dir question_id question_content subject : String) :
    Except String (Option ResultEntry) :=
  let result_entry := mkBaseEntry question_id subject question_content
  let answer_folder_path := pathJoin answers_dir question_id
  if env.isdir answer_folder_path = false then
    .ok (some { result_entry with error_message := some "Answer folder not found." })
  else
    let answer_image_files := resolveAnswerImages env answer_folder_path
    let entry1 := { result_entry with
                    answer_image_paths := answer_image_files
                    num_answer_images := answer_image_files.length }
    if answer_image_files = [] then
      .ok (some { entry1 with error_message := some "No answer images found." })
    else if isImageQuestionStr question_content then
      let full_question_image_path := pathJoin env.script_dir question_content
      let entry2 := { entry1 with
                      question_type := some "Image"
                      question_path_or_text := some full_question_image_path }
      if env.isfile full_question_image_path = false then
        .ok (some { entry2 with error_message := some "Question image file not found." })
      else
        let r := if answer_image_files.length = 1 then
                   evaluate_image_q_single_a env full_question_image_path
                     (answer_image_files.headD "")
                 else
                   evaluate_image_q_multiple_a env full_question_image_path answer_image_files
        (applyOutcome entry2 r.scores r.err).map some
    else
      let entry2 := { entry1 with
                      question_type := some "Text"
                      question_path_or_text := some question_content }
      let r := if answer_image_files.length = 1 then
                 evaluate_text_q_single_a env question_content (answer_image_files.headD "")
               else
                 evaluate_text_q_multiple_a env question_content answer_image_files
      (applyOutcome entry2 r.scores r.err).map some

/-- One iteration of the loop of `main`: a record whose id or question is
missing or empty is skipped (`.ok none`); otherwise the record is processed.
An `Except.error` is an uncaught exception escaping the loop body. -/
def processItem (env : Env) (answers_dir : String) (item : QuestionItem) :
    Except String (Option ResultEntry) :=
  match item.id, item.question with
  | some question_id, some question_content =>
    if question_id = "" ∨ question_content = "" then .ok none
    else processValidItem env answers_dir question_id question_content (item.subject.getD "N/A")
  | _, _ => .ok none

/-- The validity check of line 288 (`not question_id or not question_content`
negated): both fields present and non-empty. -/
def validItem (item : QuestionItem) : Bool :=
  match item.id, item.question with
  | some question_id, some question_content =>
    decide (¬(question_id = "" ∨ question_content = ""))
  | _, _ => false

/-- The full dataset loop: one `processItem` per record in order, collecting
the appended entries; an uncaught exception aborts the loop. -/
def runLoop (env : Env) (answers_dir : String) : List QuestionItem →
    Except String (List ResultEntry)
  | [] => .ok []
  | item :: rest =>
    match processItem env answers_dir item with
    | .error m => .error m
    | .ok none => runLoop env answers_dir rest
    | .ok (some e) => (runLoop env answers_dir rest).map (e :: ·)

/-- The two fatal dataset-load failures of lines 271–279. -/
inductive LoadError where
  | fileNotFound
  | jsonDecodeError
deriving Repr, DecidableEq

/-- Overall outcome of a run of `main`:
- `fatalLoadError`: the questions file failed to load, the run returns before
  any question is processed and before the output file is touched;
- `crashed`: an uncaught exception escaped the loop, no output file written;
- `completed`: all records were processed; `outputWritten` is false when the
  final `json.dump` raised `IOError`. -/
inductive RunResult where
  | fatalLoadError (e : LoadError)
  | crashed (msg : String)
  | completed (results : List ResultEntry) (outputWritten : Bool)
deriving Repr

/-- Embeds `main` (lines 261–382): load the dataset, run the loop, write the output
file.  `questionsData` models the result of `json.load` on the questions
file, `writeOk` models whether the final output write succeeds. -/
def runMain (env : Env) (questionsData : Except LoadError (List QuestionItem))
    (answers_dir : String) (writeOk : Bool) : RunResult :=
  match questionsData with
  | .error e => .fatalLoadError e
  | .ok data =>
    match runLoop env answers_dir data with
    | .error m => .crashed m
    | .ok results => .completed results writeOk

/-- Whether a run wrote the output file. -/
def outputWritten : RunResult → Bool
  | .completed _ w => w
  | _ => false

/-- Faithfulness side condition: whenever `json.loads` yields an object, its
values are summable (numeric), so `sum(scores.values())` cannot raise.  Runs
whose model replies carry only integer rubric scores satisfy this. -/
def sumSafe (env : Env) : Prop :=
  ∀ s fields, env.jsonLoads s = some (JsonVal.obj fields) → (pySumValues fields).isSome

/-- Faithfulness side condition matching `json.loads` on the slices the
parser feeds it (strings starting with a brace): a successful parse is a JSON
object. -/
def scoresObjOnly (env : Env) : Prop :=
  ∀ s v, env.jsonLoads s = some v → ∃ fields, v = JsonVal.obj fields

/-- Python `find` returns `-1` or a valid (nonnegative) index. -/
theorem firstIndexOf_cases (s : List Char) (c : Char) :
    firstIndexOf s c = -1 ∨ 0 ≤ firstIndexOf s c := by
  induction s with
  | nil => left; rfl
  | cons x xs ih =>
    by_cases hx : x = c
    · right; simp [firstIndexOf, hx]
    · rcases ih with h | h
      · left; simp [firstIndexOf, hx, h]
      · right; simp [firstIndexOf, hx, h]; omega

/-- Python `rfind` returns `-1` or a valid (nonnegative) index. -/
theorem lastIndexOf_cases (s : List Char) (c : Char) :
    lastIndexOf s c = -1 ∨ 0 ≤ lastIndexOf s c := by
  induction s with
  | nil => left; rfl
  | cons x xs ih =>
    rcases ih with h | h
    · by_cases hx : x = c
      · right; simp [lastIndexOf, hx, h]
      · left; simp [lastIndexOf, hx, h]
    · right; simp [lastIndexOf, h]; omega

/-- A nonnegative `find` result points at the searched character. -/
theorem firstIndexOf_get (s : List Char) (c : Char) (h : 0 ≤ firstIndexOf s c) :
    s[(firstIndexOf s c).toNat]? = some c := by
  induction s with
  | nil => simp [firstIndexOf] at h
  | cons x xs ih =>
    by_cases hx : x = c
    · simp [firstIndexOf, hx]
    · by_cases hr : 0 ≤ firstIndexOf xs c
      · have hrec := ih hr
        have hval : firstIndexOf (x :: xs) c = firstIndexOf xs c + 1 := by
          simp [firstIndexOf, hx, hr]
        rw [hval]
        have hn : (firstIndexOf xs c + 1).toNat = (firstIndexOf xs c).toNat + 1 := by omega
        rw [hn, List.getElem?_cons_succ]
        exact hrec
      · exfalso
        have hval : firstIndexOf (x :: xs) c = -1 := by
          simp [firstIndexOf, hx, hr]
        omega

/-- A nonnegative `rfind` result points at the searched character. -/
theorem lastIndexOf_get (s : List Char) (c : Char) (h : 0 ≤ lastIndexOf s c) :
    s[(lastIndexOf s c).toNat]? = some c := by
  induction s with
  | nil => simp [lastIndexOf] at h
  | cons x xs ih =>
    by_cases hr : 0 ≤ lastIndexOf xs c
    · have hrec := ih hr
      have hval : lastIndexOf (x :: xs) c = lastIndexOf xs c + 1 := by
        simp [lastIndexOf, hr]
      rw [hval]
      have hn : (lastIndexOf xs c + 1).toNat = (lastIndexOf xs c).toNat + 1 := by omega
      rw [hn, List.getElem?_cons_succ]
      exact hrec
    · by_cases hx : x = c
      · have hval : lastIndexOf (x :: xs) c = 0 := by
          simp [lastIndexOf, hr, hx]
        rw [hval]
        simp [hx]
      · exfalso
        have hval : lastIndexOf (x :: xs) c = -1 := by
          simp [lastIndexOf, hr, hx]
        omega

/-- The `find` index of one character and the `rfind` index of a different
character never coincide. -/
theorem firstIndexOf_ne_lastIndexOf (s : List Char) {c d : Char} (hcd : c ≠ d)
    (hc : 0 ≤ firstIndexOf s c) (hd : 0 ≤ lastIndexOf s d) :
    firstIndexOf s c ≠ lastIndexOf s d := by
  intro he
  have h1 := firstIndexOf_get s c hc
  have h2 := lastIndexOf_get s d hd
  rw [he] at h1
  rw [h1] at h2
  exact hcd (Option.some.inj h2)

/-- The parser succeeds exactly when the first `lbrace` exists, the last
`rbrace` lies strictly after it, and `json.loads` accepts the enclosed
slice — and then it returns exactly that parsed value. -/
theorem parse_gpt_response_some_iff (jl : List Char → Option JsonVal) (s : List Char)
    (v : JsonVal) :
    parse_gpt_response jl s = some v ↔
      0 ≤ firstIndexOf s lbrace ∧ firstIndexOf s lbrace < lastIndexOf s rbrace ∧
        jl (pySlice s (firstIndexOf s lbrace).toNat ((lastIndexOf s rbrace).toNat + 1)) =
          some v := by
  have hbr : lbrace ≠ rbrace := by decide
  unfold parse_gpt_response
  dsimp only
  split
  case isTrue h =>
    obtain ⟨h1, _, h3⟩ := h
    have hi : 0 ≤ firstIndexOf s lbrace := by
      rcases firstIndexOf_cases s lbrace with hcase | hcase
      · exact absurd hcase h1
      · exact hcase
    have hj : 0 ≤ lastIndexOf s rbrace := by omega
    have hne := firstIndexOf_ne_lastIndexOf s hbr hi hj
    have hij : firstIndexOf s lbrace < lastIndexOf s rbrace := by omega
    have htn : (lastIndexOf s rbrace + 1).toNat = (lastIndexOf s rbrace).toNat + 1 := by
      omega
    rw [htn]
    exact ⟨fun hjl => ⟨hi, hij, hjl⟩, fun hall => hall.2.2⟩
  case isFalse h =>
    constructor
    · intro hc; exact absurd hc (by simp)
    · rintro ⟨hi, hij, -⟩
      exact absurd ⟨by omega, by omega, by omega⟩ h

/-- A raw reply whose only closing brace precedes its only opening brace. -/
def revBraceChars : List Char := [rbrace, lbrace]

/-- The nested-brace sample reply of the spec, the char list of the string
made of `lbrace, "a", colon, space, lbrace, "b", colon, 1, rbrace, rbrace`. -/
def nestedChars : List Char :=
  [lbrace, dquote, 'a', dquote, ':', ' ', lbrace, dquote, 'b', dquote, ':', '1',
   rbrace, rbrace]

/-- C2. Response Parser contract: the parser returns the parsed object
exactly when the first opening brace and the last closing brace exist with
the closing one strictly after the opening one and the enclosed slice parses
as JSON; in every other case it returns `none`.  The empty string fails, a
reply whose only closing brace precedes its only opening brace fails, and
the nested-brace reply succeeds with the slice equal to the full structure
(first-brace/last-brace search, not balanced matching). -/
theorem parse_gpt_response_contract :
    (∀ (jl : List Char → Option JsonVal) (s : List Char) (v : JsonVal),
       parse_gpt_response jl s = some v ↔
         0 ≤ firstIndexOf s lbrace ∧ firstIndexOf s lbrace < lastIndexOf s rbrace ∧
           jl (pySlice s (firstIndexOf s lbrace).toNat ((lastIndexOf s rbrace).toNat + 1)) =
             some v)
    ∧ (∀ jl, parse_gpt_response jl [] = none)
    ∧ (∀ jl, parse_gpt_response jl revBraceChars = none)
    ∧ (∀ jl v, jl nestedChars = some v →
         pySlice nestedChars (firstIndexOf nestedChars lbrace).toNat
             ((lastIndexOf nestedChars rbrace).toNat + 1) = nestedChars ∧
           parse_gpt_response jl nestedChars = some v) := by
  refine ⟨parse_gpt_response_some_iff, fun jl => rfl, fun jl => rfl, fun jl v h => ⟨rfl, ?_⟩⟩
  have hstep : parse_gpt_response jl nestedChars = jl nestedChars := rfl
  rw [hstep]
  exact h

/-- A concrete `json.loads` model accepting exactly the nested sample. -/
def jlNested : List Char → Option JsonVal := fun s =>
  if s = nestedChars then
    some (JsonVal.obj [("a", JsonVal.obj [("b", JsonVal.num 1)])])
  else none

/-- Witness for C2: the nested-brace reply is parsed as the full structure
under a concrete `json.loads` model. -/
theorem parse_gpt_response_contract_witness :
    parse_gpt_response jlNested nestedChars =
      some (JsonVal.obj [("a", JsonVal.obj [("b", JsonVal.num 1)])]) :=
  (parse_gpt_response_contract.2.2.2 jlNested _ rfl).2

/-- A successful parse always comes from `json.loads`. -/
theorem parse_gpt_response_prov (jl : List Char → Option JsonVal) (s : List Char)
    (v : JsonVal) (h : parse_gpt_response jl s = some v) : ∃ t, jl t = some v := by
  obtain ⟨-, -, hjl⟩ := (parse_gpt_response_some_iff jl s v).mp h
  exact ⟨_, hjl⟩

/-- Scores returned by the shared request tail come from `json.loads`. -/
theorem completeRequest_prov (env : Env) (parts : List ContentPart) (v : JsonVal)
    (h : (completeRequest env parts).scores = some v) : ∃ t, env.jsonLoads t = some v := by
  unfold completeRequest at h
  cases hc : env.call parts with
  | ok raw =>
    rw [hc] at h
    exact parse_gpt_response_prov env.jsonLoads (pyStrip raw.data) v h
  | error e => rw [hc] at h; exact absurd h (by simp)

/-- Shape of an Evaluator Dispatch outcome as the code actually produces it:
either a truthy scores value with a null error, or a non-null error paired
with scores that are null or falsy. -/
def dispatchOk (r : EvalResult) : Prop :=
  (r.err = none ∧ ∃ v, r.scores = some v ∧ truthy v = true) ∨
  (r.err ≠ none ∧ (r.scores = none ∨ ∃ v, r.scores = some v ∧ truthy v = false))

/-- The shared request tail satisfies the dispatch shape. -/
theorem dispatchOk_completeRequest (env : Env) (parts : List ContentPart) :
    dispatchOk (completeRequest env parts) := by
  unfold dispatchOk completeRequest
  cases hc : env.call parts with
  | error e => right; simp
  | ok raw =>
    cases hs : parse_gpt_response env.jsonLoads (pyStrip raw.data) with
    | none => right; simp [hs, optTruthy]
    | some v =>
      cases ht : truthy v with
      | true => left; simp [hs, optTruthy, ht]
      | false => right; simp [hs, optTruthy, ht]

/-- An encode-failure outcome satisfies the dispatch shape. -/
theorem dispatchOk_fail (m : String) :
    dispatchOk { scores := none, err := some m, requests := 0 } := by
  right; simp [dispatchOk]

/-- Encoding fails exactly when the file read fails. -/
theorem encode_eq_none_iff (env : Env) (p : String) :
    encode_image_to_data_url env p = none ↔ env.readFile p = none := by
  unfold encode_image_to_data_url
  cases h : env.readFile p <;> simp

/-- If some answer image cannot be read, the answer-encoding loop stops with
an error. -/
theorem encodeAnswerParts_error_of_mem (env : Env) (l : List String)
    (h : ∃ a ∈ l, env.readFile a = none) :
    ∃ m, encodeAnswerParts env l = .error m := by
  induction l with
  | nil => simp at h
  | cons p ps ih =>
    obtain ⟨a, ha, hnone⟩ := h
    rcases List.mem_cons.mp ha with rfl | hmem
    · have hp : encode_image_to_data_url env a = none := (encode_eq_none_iff env a).mpr hnone
      exact ⟨"Failed to encode an answer image: " ++ a, by simp [encodeAnswerParts, hp]⟩
    · cases hp : encode_image_to_data_url env p with
      | none =>
        exact ⟨"Failed to encode an answer image: " ++ p, by simp [encodeAnswerParts, hp]⟩
      | some u =>
        obtain ⟨m, hm⟩ := ih ⟨a, hmem, hnone⟩
        exact ⟨m, by simp [encodeAnswerParts, hp, hm, Except.map]⟩

/-- C3 (amended). Every Evaluator Dispatch variant returns either truthy
scores with a null error, or a non-null error whose scores component is null
or a falsy (empty) parsed object — the two components are not always
exclusively non-null. -/
theorem evaluator_dispatch_result_shape (env : Env) (qp ap qt : String)
    (aps : List String) :
    dispatchOk (evaluate_image_q_single_a env qp ap) ∧
    dispatchOk (evaluate_image_q_multiple_a env qp aps) ∧
    dispatchOk (evaluate_text_q_single_a env qt ap) ∧
    dispatchOk (evaluate_text_q_multiple_a env qt aps) := by
  refine ⟨?_, ?_, ?_, ?_⟩
  · unfold evaluate_image_q_single_a
    cases hq : encode_image_to_data_url env qp with
    | none =>
      cases ha : encode_image_to_data_url env ap <;> exact dispatchOk_fail _
    | some qu =>
      cases ha : encode_image_to_data_url env ap with
      | none => exact dispatchOk_fail _
      | some au => exact dispatchOk_completeRequest env _
  · unfold evaluate_image_q_multiple_a
    cases hq : encode_image_to_data_url env qp with
    | none => exact dispatchOk_fail _
    | some qu =>
      cases ha : encodeAnswerParts env aps with
      | error m => exact dispatchOk_fail _
      | ok ansParts => exact dispatchOk_completeRequest env _
  · unfold evaluate_text_q_single_a
    cases ha : encode_image_to_data_url env ap with
    | none => exact dispatchOk_fail _
    | some au => exact dispatchOk_completeRequest env _
  · unfold evaluate_text_q_multiple_a
    cases ha : encodeAnswerParts env aps with
    | error m => exact dispatchOk_fail _
    | ok ansParts => exact dispatchOk_completeRequest env _

/-- Stub byte reader that always succeeds. -/
def bytesStub : String → Option (List Nat) := fun _ => some [0]

/-- Stub base64 encoder. -/
def b64Stub : List Nat → String := fun _ => "AA"

/-- The raw model reply consisting of the two braces only (an empty JSON
object). -/
def emptyObjReply : String := String.mk [lbrace, rbrace]

/-- Environment in which the model replies with an empty JSON object and
`json.loads` parses it accordingly. -/
def envC3 : Env :=
  { script_dir := "."
    readFile := bytesStub
    b64encode := b64Stub
    isdir := fun _ => true
    listdir := fun _ => ["a.png"]
    isfile := fun _ => true
    call := fun _ => .ok emptyObjReply
    jsonLoads := fun s => if s = [lbrace, rbrace] then some (JsonVal.obj []) else none }

/-- Counterexample to C3 as stated: on the raw reply consisting of an empty
JSON object, `evaluate_image_q_single_a` returns a non-null (empty) scores
object together with a non-null error message — both components of the pair
are non-null. -/
theorem evaluator_dispatch_both_non_null :
    (evaluate_image_q_single_a envC3 "q.png" "a.png").scores = some (JsonVal.obj []) ∧
    (evaluate_image_q_single_a envC3 "q.png" "a.png").err =
      some "Failed to parse scores from GPT response." :=
  ⟨rfl, rfl⟩

/-- C8. An encoding failure for any required image (question image or any
answer image) yields null scores and an error message with zero model
requests issued — the external call is never reached. -/
theorem encode_failure_short_circuits (env : Env) (qp ap qt : String)
    (aps : List String) :
    (env.readFile qp = none ∨ env.readFile ap = none →
       (evaluate_image_q_single_a env qp ap).scores = none ∧
       (evaluate_image_q_single_a env qp ap).err.isSome = true ∧
       (evaluate_image_q_single_a env qp ap).requests = 0)
    ∧ (env.readFile qp = none ∨ (∃ a ∈ aps, env.readFile a = none) →
       (evaluate_image_q_multiple_a env qp aps).scores = none ∧
       (evaluate_image_q_multiple_a env qp aps).err.isSome = true ∧
       (evaluate_image_q_multiple_a env qp aps).requests = 0)
    ∧ (env.readFile ap = none →
       (evaluate_text_q_single_a env qt ap).scores = none ∧
       (evaluate_text_q_single_a env qt ap).err.isSome = true ∧
       (evaluate_text_q_single_a env qt ap).requests = 0)
    ∧ ((∃ a ∈ aps, env.readFile a = none) →
       (evaluate_text_q_multiple_a env qt aps).scores = none ∧
       (evaluate_text_q_multiple_a env qt aps).err.isSome = true ∧
       (evaluate_text_q_multiple_a env qt aps).requests = 0) := by
  refine ⟨?_, ?_, ?_, ?_⟩
  · rintro (h | h)
    · have hq : encode_image_to_data_url env qp = none := (encode_eq_none_iff env qp).mpr h
      cases ha : encode_image_to_data_url env ap <;>
        simp [evaluate_image_q_single_a, hq, ha]
    · have ha : encode_image_to_data_url env ap = none := (encode_eq_none_iff env ap).mpr h
      cases hq : encode_image_to_data_url env qp <;>
        simp [evaluate_image_q_single_a, hq, ha]
  · rintro (h | h)
    · have hq : encode_image_to_data_url env qp = none := (encode_eq_none_iff env qp).mpr h
      simp [evaluate_image_q_multiple_a, hq]
    · cases hq : encode_image_to_data_url env qp with
      | none => simp [evaluate_image_q_multiple_a, hq]
      | some qu =>
        obtain ⟨m, hm⟩ := encodeAnswerParts_error_of_mem env aps h
        simp [evaluate_image_q_multiple_a, hq, hm]
  · intro h
    have ha : encode_image_to_data_url env ap = none := (encode_eq_none_iff env ap).mpr h
    simp [evaluate_text_q_single_a, ha]
  · intro h
    obtain ⟨m, hm⟩ := encodeAnswerParts_error_of_mem env aps h
    simp [evaluate_text_q_multiple_a, hm]

/-- Environment in which every file read fails. -/
def envNoRead : Env :=
  { script_dir := "."
    readFile := fun _ => none
    b64encode := b64Stub
    isdir := fun _ => true
    listdir := fun _ => ["a.png"]
    isfile := fun _ => true
    call := fun _ => .ok ""
    jsonLoads := fun _ => none }

/-- Witness for C8: with an unreadable question image, the single-answer
image evaluator issues no request and reports the encoding error. -/
theorem encode_failure_short_circuits_witness :
    envNoRead.readFile "q.png" = none ∧
      (evaluate_image_q_single_a envNoRead "q.png" "a.png").scores = none ∧
      (evaluate_image_q_single_a envNoRead "q.png" "a.png").err.isSome = true ∧
      (evaluate_image_q_single_a envNoRead "q.png" "a.png").requests = 0 :=
  ⟨rfl, (encode_failure_short_circuits envNoRead "q.png" "a.png" "q" ["a.png"]).1
    (Or.inl rfl)⟩

/-- Exhaustive description of the successful outcomes of `applyOutcome`:
an error message is recorded verbatim; falsy scores record the fallback
message; truthy object scores are stored with their value sum; truthy
non-object scores are stored with total 0. -/
theorem applyOutcome_cases (e : ResultEntry) (s : Option JsonVal) (err : Option String)
    (e2 : ResultEntry) (h : applyOutcome e s err = .ok e2) :
    (∃ m, err = some m ∧ e2 = { e with error_message := some m }) ∨
    (err = none ∧
      ((optTruthy s = false ∧
         e2 = { e with
                error_message := some "Evaluation completed but no scores were returned." }) ∨
       (∃ fields t, s = some (JsonVal.obj fields) ∧ truthy (JsonVal.obj fields) = true ∧
          pySumValues fields = some t ∧
          e2 = { e with category_scores := some (JsonVal.obj fields), total_score := t }) ∨
       (∃ v, s = some v ∧ truthy v = true ∧ (∀ fields, v ≠ JsonVal.obj fields) ∧
          e2 = { e with category_scores := some v, total_score := 0 }))) := by
  unfold applyOutcome at h
  cases err with
  | some m => cases h; exact Or.inl ⟨m, rfl, rfl⟩
  | none =>
    refine Or.inr ⟨rfl, ?_⟩
    cases s with
    | none => cases h; exact Or.inl ⟨rfl, rfl⟩
    | some v =>
      dsimp only at h
      by_cases ht : truthy v = true
      · rw [if_pos ht] at h
        cases v with
        | obj fields =>
          dsimp only at h
          cases hsum : pySumValues fields with
          | none => rw [hsum] at h; exact absurd h (by simp)
          | some t =>
            rw [hsum] at h; cases h
            exact Or.inr (Or.inl ⟨fields, t, rfl, ht, hsum, rfl⟩)
        | arr elems =>
          dsimp only at h; cases h
          exact Or.inr (Or.inr ⟨_, rfl, ht, fun f hh => JsonVal.noConfusion hh, rfl⟩)
        | str sv =>
          dsimp only at h; cases h
          exact Or.inr (Or.inr ⟨_, rfl, ht, fun f hh => JsonVal.noConfusion hh, rfl⟩)
        | num n =>
          dsimp only at h; cases h
          exact Or.inr (Or.inr ⟨_, rfl, ht, fun f hh => JsonVal.noConfusion hh, rfl⟩)
        | bool b =>
          dsimp only at h; cases h
          exact Or.inr (Or.inr ⟨_, rfl, ht, fun f hh => JsonVal.noConfusion hh, rfl⟩)
        | null =>
          dsimp only at h; cases h
          exact Or.inr (Or.inr ⟨_, rfl, ht, fun f hh => JsonVal.noConfusion hh, rfl⟩)
      · rw [if_neg ht] at h; cases h
        refine Or.inl ⟨?_, rfl⟩
        cases hb : truthy v with
        | true => exact absurd hb ht
        | false => simp [optTruthy, hb]

/-- Under `sumSafe`, folding an evaluation outcome whose scores came from
`json.loads` never raises. -/
theorem applyOutcome_ok_exists (env : Env) (Hs : sumSafe env) (r : EvalResult)
    (hprov : ∀ v, r.scores = some v → ∃ t, env.jsonLoads t = some v) (e : ResultEntry) :
    ∃ e2, applyOutcome e r.scores r.err = .ok e2 := by
  unfold applyOutcome
  cases her : r.err with
  | some m => exact ⟨_, rfl⟩
  | none =>
    cases hs : r.scores with
    | none => exact ⟨_, rfl⟩
    | some v =>
      dsimp only
      by_cases ht : truthy v = true
      · rw [if_pos ht]
        cases v with
        | obj fields =>
          obtain ⟨t, hjl⟩ := hprov _ hs
          have hsome := Hs t fields hjl
          dsimp only
          cases hsum : pySumValues fields with
          | none => rw [hsum] at hsome; exact absurd hsome (by simp)
          | some tt => exact ⟨_, rfl⟩
        | arr elems => exact ⟨_, rfl⟩
        | str sv => exact ⟨_, rfl⟩
        | num n => exact ⟨_, rfl⟩
        | bool b => exact ⟨_, rfl⟩
        | null => exact ⟨_, rfl⟩
      · rw [if_neg ht]; exact ⟨_, rfl⟩

/-- Scores of `evaluate_image_q_single_a` come from `json.loads`. -/
theorem evaluate_image_q_single_a_prov (env : Env) (qp ap : String) (v : JsonVal)
    (h : (evaluate_image_q_single_a env qp ap).scores = some v) :
    ∃ t, env.jsonLoads t = some v := by
  unfold evaluate_image_q_single_a at h
  cases hq : encode_image_to_data_url env qp with
  | none =>
    rw [hq] at h
    cases ha : encode_image_to_data_url env ap <;> rw [ha] at h <;> simp at h
  | some qu =>
    rw [hq] at h
    cases ha : encode_image_to_data_url env ap with
    | none => rw [ha] at h; simp at h
    | some au => rw [ha] at h; exact completeRequest_prov env _ v h

/-- Scores of `evaluate_image_q_multiple_a` come from `json.loads`. -/
theorem evaluate_image_q_multiple_a_prov (env : Env) (qp : String) (aps : List String)
    (v : JsonVal) (h : (evaluate_image_q_multiple_a env qp aps).scores = some v) :
    ∃ t, env.jsonLoads t = some v := by
  unfold evaluate_image_q_multiple_a at h
  cases hq : encode_image_to_data_url env qp with
  | none => rw [hq] at h; simp at h
  | some qu =>
    rw [hq] at h
    cases ha : encodeAnswerParts env aps with
    | error m => rw [ha] at h; simp at h
    | ok ansParts => rw [ha] at h; exact completeRequest_prov env _ v h

/-- Scores of `evaluate_text_q_single_a` come from `json.loads`. -/
theorem evaluate_text_q_single_a_prov (env : Env) (qt ap : String) (v : JsonVal)
    (h : (evaluate_text_q_single_a env qt ap).scores = some v) :
    ∃ t, env.jsonLoads t = some v := by
  unfold evaluate_text_q_single_a at h
  cases ha : encode_image_to_data_url env ap with
  | none => rw [ha] at h; simp at h
  | some au => rw [ha] at h; exact completeRequest_prov env _ v h

/-- Scores of `evaluate_text_q_multiple_a` come from `json.loads`. -/
theorem evaluate_text_q_multiple_a_prov (env : Env) (qt : String) (aps : List String)
    (v : JsonVal) (h : (evaluate_text_q_multiple_a env qt aps).scores = some v) :
    ∃ t, env.jsonLoads t = some v := by
  unfold evaluate_text_q_multiple_a at h
  cases ha : encodeAnswerParts env aps with
  | error m => rw [ha] at h; simp at h
  | ok ansParts => rw [ha] at h; exact completeRequest_prov env _ v h

/-- The fold `applyOutcome` never touches the identification, modality, or
answer-set fields of the entry. -/
theorem applyOutcome_preserves (e : ResultEntry) (s : Option JsonVal) (err : Option String)
    (e2 : ResultEntry) (h : applyOutcome e s err = .ok e2) :
    e2.question_id = e.question_id ∧ e2.subject = e.subject ∧
    e2.question_raw = e.question_raw ∧ e2.question_type = e.question_type ∧
    e2.question_path_or_text = e.question_path_or_text ∧
    e2.answer_image_paths = e.answer_image_paths ∧
    e2.num_answer_images = e.num_answer_images := by
  rcases applyOutcome_cases e s err e2 h with
    ⟨m, -, rfl⟩ | ⟨-, ⟨-, rfl⟩ | ⟨f, t, -, -, -, rfl⟩ | ⟨v, -, -, -, rfl⟩⟩ <;>
    exact ⟨rfl, rfl, rfl, rfl, rfl, rfl, rfl⟩

/-- The entry state after the answer images have been resolved and stored
(lines 314–320). -/
def entryWithFiles (env : Env) (d qid qc subj : String) : ResultEntry :=
  { mkBaseEntry qid subj qc with
    answer_image_paths := resolveAnswerImages env (pathJoin d qid)
    num_answer_images := (resolveAnswerImages env (pathJoin d qid)).length }

/-- The entry state after an image question has been classified
(lines 331–333). -/
def imageEntry (env : Env) (d qid qc subj : String) : ResultEntry :=
  { entryWithFiles env d qid qc subj with
    question_type := some "Image"
    question_path_or_text := some (pathJoin env.script_dir qc) }

/-- The entry state after a text question has been classified
(lines 347–348). -/
def textEntry (env : Env) (d qid qc subj : String) : ResultEntry :=
  { entryWithFiles env d qid qc subj with
    question_type := some "Text"
    question_path_or_text := some qc }

/-- The evaluator invoked for an image question (lines 340–345). -/
def imageEval (env : Env) (d qid qc : String) : EvalResult :=
  if (resolveAnswerImages env (pathJoin d qid)).length = 1 then
    evaluate_image_q_single_a env (pathJoin env.script_dir qc)
      ((resolveAnswerImages env (pathJoin d qid)).headD "")
  else
    evaluate_image_q_multiple_a env (pathJoin env.script_dir qc)
      (resolveAnswerImages env (pathJoin d qid))

/-- The evaluator invoked for a text question (lines 349–354). -/
def textEval (env : Env) (d qid qc : String) : EvalResult :=
  if (resolveAnswerImages env (pathJoin d qid)).length = 1 then
    evaluate_text_q_single_a env qc ((resolveAnswerImages env (pathJoin d qid)).headD "")
  else
    evaluate_text_q_multiple_a env qc (resolveAnswerImages env (pathJoin d qid))

/-- Exhaustive branch analysis of one loop iteration: either the record is
invalid and skipped, or it is processed through exactly one of the five
branches (missing folder, empty folder, missing question image, image
evaluation, text evaluation). -/
theorem processItem_shape (env : Env) (d : String) (item : QuestionItem) :
    (validItem item = false ∧ processItem env d item = .ok none) ∨
    (∃ qid qc subj, item.id = some qid ∧ item.question = some qc ∧
      subj = item.subject.getD "N/A" ∧ ¬(qid = "" ∨ qc = "") ∧
      ((env.isdir (pathJoin d qid) = false ∧
         processItem env d item =
           .ok (some { mkBaseEntry qid subj qc with
                       error_message := some "Answer folder not found." })) ∨
       (env.isdir (pathJoin d qid) = true ∧
         resolveAnswerImages env (pathJoin d qid) = [] ∧
         processItem env d item =
           .ok (some { entryWithFiles env d qid qc subj with
                       error_message := some "No answer images found." })) ∨
       (env.isdir (pathJoin d qid) = true ∧
         resolveAnswerImages env (pathJoin d qid) ≠ [] ∧
         isImageQuestionStr qc = true ∧
         env.isfile (pathJoin env.script_dir qc) = false ∧
         processItem env d item =
           .ok (some { imageEntry env d qid qc subj with
                       error_message := some "Question image file not found." })) ∨
       (env.isdir (pathJoin d qid) = true ∧
         resolveAnswerImages env (pathJoin d qid) ≠ [] ∧
         isImageQuestionStr qc = true ∧
         env.isfile (pathJoin env.script_dir qc) = true ∧
         processItem env d item =
           (applyOutcome (imageEntry env d qid qc subj) (imageEval env d qid qc).scores
             (imageEval env d qid qc).err).map some) ∨
       (env.isdir (pathJoin d qid) = true ∧
         resolveAnswerImages env (pathJoin d qid) ≠ [] ∧
         isImageQuestionStr qc = false ∧
         processItem env d item =
           (applyOutcome (textEntry env d qid qc subj) (textEval env d qid qc).scores
             (textEval env d qid qc).err).map some))) := by
  obtain ⟨oid, oq, osub⟩ := item
  cases oid with
  | none => exact Or.inl ⟨rfl, rfl⟩
  | some qid =>
    cases oq with
    | none => exact Or.inl ⟨rfl, rfl⟩
    | some qc =>
      by_cases hne : qid = "" ∨ qc = ""
      · left
        constructor
        · simp [validItem, hne]
        · simp [processItem, hne]
      · right
        refine ⟨qid, qc, _, rfl, rfl, rfl, hne, ?_⟩
        by_cases hdir : env.isdir (pathJoin d qid) = false
        · left
          refine ⟨hdir, ?_⟩
          simp [processItem, processValidItem, hne, hdir]
        · have hdir' : env.isdir (pathJoin d qid) = true := by
            revert hdir; cases env.isdir (pathJoin d qid) <;> simp
          by_cases hfiles : resolveAnswerImages env (pathJoin d qid) = []
          · right; left
            refine ⟨hdir', hfiles, ?_⟩
            simp [processItem, processValidItem, entryWithFiles, hne, hdir', hfiles]
          · by_cases himg : isImageQuestionStr qc = true
            · by_cases hfile : env.isfile (pathJoin env.script_dir qc) = false
              · right; right; left
                refine ⟨hdir', hfiles, himg, hfile, ?_⟩
                simp [processItem, processValidItem, entryWithFiles, imageEntry,
                      hne, hdir', hfiles, himg, hfile]
              · have hfile' : env.isfile (pathJoin env.script_dir qc) = true := by
                  revert hfile; cases env.isfile (pathJoin env.script_dir qc) <;> simp
                right; right; right; left
                refine ⟨hdir', hfiles, himg, hfile', ?_⟩
                simp [processItem, processValidItem, entryWithFiles, imageEntry,
                      imageEval, hne, hdir', hfiles, himg, hfile']
            · have himg' : isImageQuestionStr qc = false := by
                revert himg; cases isImageQuestionStr qc <;> simp
              right; right; right; right
              refine ⟨hdir', hfiles, himg', ?_⟩
              simp [processItem, processValidItem, entryWithFiles, textEntry,
                    textEval, hne, hdir', hfiles, himg']

/-- Scores taken from the image-question dispatch come from `json.loads`. -/
theorem imageEval_prov (env : Env) (d qid qc : String) (v : JsonVal)
    (h : (imageEval env d qid qc).scores = some v) : ∃ t, env.jsonLoads t = some v := by
  unfold imageEval at h
  split at h
  · exact evaluate_image_q_single_a_prov env _ _ v h
  · exact evaluate_image_q_multiple_a_prov env _ _ v h

/-- Scores taken from the text-question dispatch come from `json.loads`. -/
theorem textEval_prov (env : Env) (d qid qc : String) (v : JsonVal)
    (h : (textEval env d qid qc).scores = some v) : ∃ t, env.jsonLoads t = some v := by
  unfold textEval at h
  split at h
  · exact evaluate_text_q_single_a_prov env _ _ v h
  · exact evaluate_text_q_multiple_a_prov env _ _ v h

/-- An invalid record is skipped. -/
theorem processItem_of_invalid (env : Env) (d : String) (item : QuestionItem)
    (h : validItem item = false) : processItem env d item = .ok none := by
  obtain ⟨oid, oq, osub⟩ := item
  cases oid with
  | none => rfl
  | some qid =>
    cases oq with
    | none => rfl
    | some qc =>
      simp only [validItem, decide_eq_false_iff_not, not_not] at h
      simp [processItem, h]

/-- Under `sumSafe`, a valid record always yields exactly one appended
entry. -/
theorem processItem_of_valid_ok (env : Env) (d : String) (item : QuestionItem)
    (Hs : sumSafe env) (h : validItem item = true) :
    ∃ e, processItem env d item = .ok (some e) := by
  rcases processItem_shape env d item with ⟨hfalse, -⟩ | ⟨qid, qc, subj, -, -, -, -, hbr⟩
  · rw [h] at hfalse; cases hfalse
  · rcases hbr with ⟨-, heq⟩ | ⟨-, -, heq⟩ | ⟨-, -, -, -, heq⟩ | ⟨-, -, -, -, heq⟩ |
      ⟨-, -, -, heq⟩
    · exact ⟨_, heq⟩
    · exact ⟨_, heq⟩
    · exact ⟨_, heq⟩
    · obtain ⟨e2, he2⟩ := applyOutcome_ok_exists env Hs (imageEval env d qid qc)
        (imageEval_prov env d qid qc) (imageEntry env d qid qc subj)
      exact ⟨e2, by rw [heq, he2]; rfl⟩
    · obtain ⟨e2, he2⟩ := applyOutcome_ok_exists env Hs (textEval env d qid qc)
        (textEval_prov env d qid qc) (textEntry env d qid qc subj)
      exact ⟨e2, by rw [heq, he2]; rfl⟩

/-- Skipped record: the loop just moves on. -/
theorem runLoop_cons_skip (env : Env) (d : String) (item : QuestionItem)
    (rest : List QuestionItem) (h : processItem env d item = .ok none) :
    runLoop env d (item :: rest) = runLoop env d rest := by
  conv_lhs => rw [runLoop]
  rw [h]

/-- Erroring iteration: the loop aborts with the exception. -/
theorem runLoop_cons_error (env : Env) (d : String) (item : QuestionItem)
    (rest : List QuestionItem) (m : String) (h : processItem env d item = .error m) :
    runLoop env d (item :: rest) = .error m := by
  conv_lhs => rw [runLoop]
  rw [h]

/-- Appended entry: the loop records it and moves on. -/
theorem runLoop_cons_entry (env : Env) (d : String) (item : QuestionItem)
    (rest : List QuestionItem) (e : ResultEntry)
    (h : processItem env d item = .ok (some e)) :
    runLoop env d (item :: rest) = (runLoop env d rest).map (e :: ·) := by
  conv_lhs => rw [runLoop]
  rw [h]

/-- Under `sumSafe` the loop completes and produces exactly one entry per
valid record, in order. -/
theorem runLoop_ok_length (env : Env) (d : String) (Hs : sumSafe env)
    (data : List QuestionItem) :
    ∃ results, runLoop env d data = .ok results ∧
      results.length = (data.filter validItem).length := by
  induction data with
  | nil => exact ⟨[], rfl, rfl⟩
  | cons item rest ih =>
    obtain ⟨rs, hrs, hlen⟩ := ih
    cases hv : validItem item with
    | false =>
      refine ⟨rs, ?_, ?_⟩
      · rw [runLoop_cons_skip env d item rest (processItem_of_invalid env d item hv), hrs]
      · rw [hlen]; simp [List.filter_cons, hv]
    | true =>
      obtain ⟨e, he⟩ := processItem_of_valid_ok env d item Hs hv
      refine ⟨e :: rs, ?_, ?_⟩
      · rw [runLoop_cons_entry env d item rest e he, hrs]; rfl
      · simp [List.filter_cons, hv, hlen]

/-- Folding an outcome with `json.loads`-sourced scores into a fresh entry
keeps the total-score invariant, provided `json.loads` yields objects only. -/
theorem applyOutcome_inv (env : Env) (Hobj : scoresObjOnly env) (R : EvalResult)
    (hprov : ∀ v, R.scores = some v → ∃ t, env.jsonLoads t = some v)
    (base e2 : ResultEntry) (hcat : base.category_scores = none)
    (htot : base.total_score = 0) (h : applyOutcome base R.scores R.err = .ok e2) :
    (e2.category_scores = none → e2.total_score = 0) ∧
    (∀ v, e2.category_scores = some v →
      ∃ fields, v = JsonVal.obj fields ∧ pySumValues fields = some e2.total_score) := by
  rcases applyOutcome_cases base R.scores R.err e2 h with
    ⟨m, -, rfl⟩ | ⟨-, hrest⟩
  · constructor
    · intro; exact htot
    · intro v hv; simp only [hcat] at hv; exact absurd hv (by simp)
  · rcases hrest with ⟨-, rfl⟩ | ⟨fields, t, hsv, -, hsum, rfl⟩ | ⟨v, hsv, -, hne, rfl⟩
    · constructor
      · intro; exact htot
      · intro v hv; simp only [hcat] at hv; exact absurd hv (by simp)
    · constructor
      · intro hc; exact absurd hc (by simp)
      · intro v hv
        have hveq : JsonVal.obj fields = v := by simpa using hv
        subst hveq
        exact ⟨fields, rfl, by simpa using hsum⟩
    · obtain ⟨t, hjl⟩ := hprov v hsv
      obtain ⟨fields, rfl⟩ := Hobj t v hjl
      exact absurd rfl (hne fields)

/-- Per-entry total-score invariant of every appended entry. -/
theorem processItem_entry_inv (env : Env) (Hobj : scoresObjOnly env) (d : String)
    (item : QuestionItem) (e : ResultEntry) (h : processItem env d item = .ok (some e)) :
    (e.category_scores = none → e.total_score = 0) ∧
    (∀ v, e.category_scores = some v →
      ∃ fields, v = JsonVal.obj fields ∧ pySumValues fields = some e.total_score) := by
  rcases processItem_shape env d item with ⟨-, heq⟩ | ⟨qid, qc, subj, -, -, -, -, hbr⟩
  · rw [heq] at h; exact absurd h (by simp)
  · rcases hbr with ⟨-, heq⟩ | ⟨-, -, heq⟩ | ⟨-, -, -, -, heq⟩ | ⟨-, -, -, -, heq⟩ |
      ⟨-, -, -, heq⟩
    · rw [heq] at h
      simp only [Except.ok.injEq, Option.some.injEq] at h
      subst h
      refine ⟨fun _ => rfl, fun v hv => ?_⟩
      exact absurd hv (by simp [mkBaseEntry])
    · rw [heq] at h
      simp only [Except.ok.injEq, Option.some.injEq] at h
      subst h
      refine ⟨fun _ => rfl, fun v hv => ?_⟩
      exact absurd hv (by simp [entryWithFiles, mkBaseEntry])
    · rw [heq] at h
      simp only [Except.ok.injEq, Option.some.injEq] at h
      subst h
      refine ⟨fun _ => rfl, fun v hv => ?_⟩
      exact absurd hv (by simp [imageEntry, entryWithFiles, mkBaseEntry])
    · rw [heq] at h
      cases hap : applyOutcome (imageEntry env d qid qc subj) (imageEval env d qid qc).scores
          (imageEval env d qid qc).err with
      | error m => rw [hap] at h; exact absurd h (by simp [Except.map])
      | ok e2 =>
        rw [hap] at h
        simp only [Except.map, Except.ok.injEq, Option.some.injEq] at h
        subst h
        exact applyOutcome_inv env Hobj (imageEval env d qid qc)
          (imageEval_prov env d qid qc) (imageEntry env d qid qc subj) _ rfl rfl hap
    · rw [heq] at h
      cases hap : applyOutcome (textEntry env d qid qc subj) (textEval env d qid qc).scores
          (textEval env d qid qc).err with
      | error m => rw [hap] at h; exact absurd h (by simp [Except.map])
      | ok e2 =>
        rw [hap] at h
        simp only [Except.map, Except.ok.injEq, Option.some.injEq] at h
        subst h
        exact applyOutcome_inv env Hobj (textEval env d qid qc)
          (textEval_prov env d qid qc) (textEntry env d qid qc subj) _ rfl rfl hap

/-- A valid record with hypotheses matching its fields is valid. -/
theorem validItem_eq_true (item : QuestionItem) (qid qc : String)
    (hid : item.id = some qid) (hq : item.question = some qc)
    (hne : ¬(qid = "" ∨ qc = "")) : validItem item = true := by
  unfold validItem
  rw [hid, hq]
  simp [hne]

/-- Outcome of a valid record whose answer folder exists and holds at least
one image: exactly one entry is appended, classified by the extension test
alone; a classified image question whose file is missing records the
question-image error while keeping the `Image` label. -/
theorem processItem_qtype (env : Env) (d : String) (item : QuestionItem) (qid qc : String)
    (Hs : sumSafe env) (hid : item.id = some qid) (hq : item.question = some qc)
    (hne : ¬(qid = "" ∨ qc = "")) (hdir : env.isdir (pathJoin d qid) = true)
    (hfiles : resolveAnswerImages env (pathJoin d qid) ≠ []) :
    ∃ e, processItem env d item = .ok (some e) ∧
      e.question_type = some (if isImageQuestionStr qc then "Image" else "Text") ∧
      e.question_path_or_text =
        some (if isImageQuestionStr qc then pathJoin env.script_dir qc else qc) ∧
      e.answer_image_paths = resolveAnswerImages env (pathJoin d qid) ∧
      e.num_answer_images = (resolveAnswerImages env (pathJoin d qid)).length ∧
      (isImageQuestionStr qc = true → env.isfile (pathJoin env.script_dir qc) = false →
        e.error_message = some "Question image file not found.") := by
  rcases processItem_shape env d item with ⟨hfalse, -⟩ | ⟨qid', qc', subj, hid', hq', -, -, hbr⟩
  · rw [validItem_eq_true item qid qc hid hq hne] at hfalse; cases hfalse
  · rw [hid] at hid'
    rw [hq] at hq'
    obtain rfl : qid = qid' := Option.some.inj hid'
    obtain rfl : qc = qc' := Option.some.inj hq'
    rcases hbr with ⟨hd, -⟩ | ⟨-, hf, -⟩ | ⟨-, -, himg, hfile, heq⟩ |
      ⟨-, -, himg, hfile, heq⟩ | ⟨-, -, himg, heq⟩
    · rw [hdir] at hd; cases hd
    · exact absurd hf hfiles
    · refine ⟨_, heq, ?_, ?_, rfl, rfl, fun _ _ => rfl⟩
      · simp [imageEntry, entryWithFiles, mkBaseEntry, himg]
      · simp [imageEntry, entryWithFiles, mkBaseEntry, himg]
    · obtain ⟨e2, he2⟩ := applyOutcome_ok_exists env Hs (imageEval env d qid qc)
        (imageEval_prov env d qid qc) (imageEntry env d qid qc subj)
      obtain ⟨-, -, -, hqt, hqp, hpaths, hnum⟩ :=
        applyOutcome_preserves _ _ _ _ he2
      refine ⟨e2, by rw [heq, he2]; rfl, ?_, ?_, ?_, ?_, ?_⟩
      · rw [hqt]; simp [imageEntry, entryWithFiles, mkBaseEntry, himg]
      · rw [hqp]; simp [imageEntry, entryWithFiles, mkBaseEntry, himg]
      · rw [hpaths]; rfl
      · rw [hnum]; rfl
      · intro _ hf; rw [hfile] at hf; cases hf
    · obtain ⟨e2, he2⟩ := applyOutcome_ok_exists env Hs (textEval env d qid qc)
        (textEval_prov env d qid qc) (textEntry env d qid qc subj)
      obtain ⟨-, -, -, hqt, hqp, hpaths, hnum⟩ :=
        applyOutcome_preserves _ _ _ _ he2
      refine ⟨e2, by rw [heq, he2]; rfl, ?_, ?_, ?_, ?_, ?_⟩
      · rw [hqt]; simp [textEntry, entryWithFiles, mkBaseEntry, himg]
      · rw [hqp]; simp [textEntry, entryWithFiles, mkBaseEntry, himg]
      · rw [hpaths]; rfl
      · rw [hnum]; rfl
      · intro him _; rw [himg] at him; cases him

/-- The all-succeeding environment used by witnesses: one answer image per
folder, replies that carry no JSON object. -/
def envHappy : Env :=
  { script_dir := "."
    readFile := bytesStub
    b64encode := b64Stub
    isdir := fun _ => true
    listdir := fun _ => ["a.png"]
    isfile := fun _ => true
    call := fun _ => .ok "no scores"
    jsonLoads := fun _ => none }

/-- A valid text-question record. -/
def itemGood : QuestionItem := ⟨some "q1", some "What is 7x8?", none⟩

/-- A record with a missing id, skipped by the loop. -/
def itemBad : QuestionItem := ⟨none, some "x", none⟩

/-- Environment whose question-image file does not exist on disk. -/
def envC1 : Env := { envHappy with isfile := fun _ => false }

/-- A record whose question text is an image path. -/
def itemC1 : QuestionItem := ⟨some "q1", some "fig1.png", none⟩

/-- Question-type and error-message projection of a loop-iteration result. -/
def entrySummary (r : Except String (Option ResultEntry)) :
    Option (Option String × Option String) :=
  match r with
  | .ok (some e) => some (e.question_type, e.error_message)
  | _ => none

/-- Counterexample to C1 as stated: the question text `fig1.png` ends in a
recognized image extension but no file exists at the resolved path
(`envC1.isfile` is constantly false), yet the recorded `question_type` is
`Image`, not `Text`; the missing file only adds an error message. -/
theorem question_type_missing_file_counterexample :
    envC1.isfile (pathJoin envC1.script_dir "fig1.png") = false ∧
    entrySummary (processItem envC1 "data" itemC1) =
      some (some "Image", some "Question image file not found.") :=
  ⟨rfl, rfl⟩

/-- C1 (amended). For every record reaching modality classification,
`question_type` is `Image` iff the question content ends case-insensitively
in `.png`/`.jpg`/`.jpeg`, regardless of whether the file exists; when the
classified image file is missing, the entry keeps the `Image` label and
records the question-image error. -/
theorem question_type_classification (env : Env) (d : String) (item : QuestionItem)
    (qid qc : String) (Hs : sumSafe env) (hid : item.id = some qid)
    (hq : item.question = some qc) (hne : ¬(qid = "" ∨ qc = ""))
    (hdir : env.isdir (pathJoin d qid) = true)
    (hfiles : resolveAnswerImages env (pathJoin d qid) ≠ []) :
    ∃ e, processItem env d item = .ok (some e) ∧
      e.question_type = some (if isImageQuestionStr qc then "Image" else "Text") ∧
      (isImageQuestionStr qc = true → env.isfile (pathJoin env.script_dir qc) = false →
        e.error_message = some "Question image file not found.") := by
  obtain ⟨e, h1, h2, -, -, -, h6⟩ :=
    processItem_qtype env d item qid qc Hs hid hq hne hdir hfiles
  exact ⟨e, h1, h2, h6⟩

/-- Witness for C1 (amended): the concrete missing-file record is classified
`Image` with the question-image error recorded. -/
theorem question_type_classification_witness :
    sumSafe envC1 ∧
      ∃ e, processItem envC1 "data" itemC1 = .ok (some e) ∧
        e.question_type = some (if isImageQuestionStr "fig1.png" then "Image" else "Text") ∧
        (isImageQuestionStr "fig1.png" = true →
          envC1.isfile (pathJoin envC1.script_dir "fig1.png") = false →
          e.error_message = some "Question image file not found.") := by
  have hs : sumSafe envC1 := by
    intro s f h; exact absurd h (by simp [envC1, envHappy])
  exact ⟨hs, question_type_classification envC1 "data" itemC1 "q1" "fig1.png" hs rfl rfl
    (by decide) rfl (by decide)⟩

/-- C4 (amended). Dataset-load failures abort before any processing without
writing output; under sum-safe replies the loop never aborts and yields
exactly one entry per valid record. -/
theorem batch_fault_isolation (env : Env) (qd : Except LoadError (List QuestionItem))
    (d : String) (w : Bool) (Hs : sumSafe env) :
    (∀ le, qd = .error le → runMain env qd d w = .fatalLoadError le ∧
      outputWritten (runMain env qd d w) = false) ∧
    (∀ data, qd = .ok data → ∃ results, runMain env qd d w = .completed results w ∧
      results.length = (data.filter validItem).length) := by
  constructor
  · rintro le rfl; exact ⟨rfl, rfl⟩
  · rintro data rfl
    obtain ⟨results, hr, hl⟩ := runLoop_ok_length env d Hs data
    refine ⟨results, ?_, hl⟩
    unfold runMain
    dsimp only
    rw [hr]

/-- The chars of the raw reply carrying a string-valued score. -/
def strScoreChars : List Char :=
  [lbrace, dquote, '1', dquote, ':', dquote, '3', dquote, rbrace]

/-- Environment whose model reply parses to an object with a string-valued
score (a real `json.loads` outcome on that reply). -/
def envC4 : Env :=
  { envHappy with
    call := fun _ => .ok (String.mk strScoreChars)
    jsonLoads := fun s =>
      if s = strScoreChars then some (JsonVal.obj [("1", JsonVal.str "3")]) else none }

/-- Counterexample to C4 as stated: a single question whose parsed scores
object carries a string value makes `sum(scores.values())` raise an uncaught
`TypeError`; the run aborts on a per-question evaluation outcome, not a
dataset-load failure, and the output file is never written. -/
theorem batch_crash_counterexample :
    runMain envC4 (.ok [itemGood]) "data" true =
      .crashed "TypeError: unsupported operand type(s) for +" ∧
    outputWritten (runMain envC4 (.ok [itemGood]) "data" true) = false :=
  ⟨rfl, rfl⟩

/-- Witness for C4 (amended): a two-record dataset (one valid, one missing
its id) completes with exactly one entry. -/
theorem batch_fault_isolation_witness :
    sumSafe envHappy ∧
      ∃ results, runMain envHappy (.ok [itemGood, itemBad]) "data" true =
        .completed results true ∧
        results.length = ([itemGood, itemBad].filter validItem).length := by
  have hs : sumSafe envHappy := by
    intro s f h; exact absurd h (by simp [envHappy])
  exact ⟨hs, (batch_fault_isolation envHappy (.ok [itemGood, itemBad]) "data" true hs).2
    _ rfl⟩

/-- C5. In every entry the loop emits, `total_score` is the sum of the
`category_scores` values when they are present and exactly 0 when
`category_scores` is null (assuming `json.loads` yields objects, as it does
on the brace-delimited slices the parser feeds it). -/
theorem total_score_invariant (env : Env) (d : String) (Hobj : scoresObjOnly env)
    (data : List QuestionItem) (results : List ResultEntry)
    (h : runLoop env d data = .ok results) :
    ∀ e ∈ results, (e.category_scores = none → e.total_score = 0) ∧
      (∀ v, e.category_scores = some v →
        ∃ fields, v = JsonVal.obj fields ∧ pySumValues fields = some e.total_score) := by
  induction data generalizing results with
  | nil =>
    have hres : results = [] := by
      unfold runLoop at h
      exact (Except.ok.inj h).symm
    subst hres
    intro e he
    exact absurd he (by simp)
  | cons item rest ih =>
    cases hp : processItem env d item with
    | error m =>
      rw [runLoop_cons_error env d item rest m hp] at h
      exact absurd h (by simp)
    | ok o =>
      cases o with
      | none =>
        rw [runLoop_cons_skip env d item rest hp] at h
        exact ih results h
      | some e0 =>
        rw [runLoop_cons_entry env d item rest e0 hp] at h
        cases hr : runLoop env d rest with
        | error m => rw [hr] at h; exact absurd h (by simp [Except.map])
        | ok rs =>
          rw [hr] at h
          simp only [Except.map, Except.ok.injEq] at h
          subst h
          intro e he
          rcases List.mem_cons.mp he with rfl | hmem
          · exact processItem_entry_inv env Hobj d item e hp
          · exact ih rs hr e hmem

/-- The entry produced for `itemGood` under `envHappy`. -/
def entryHappy : ResultEntry :=
  { question_id := "q1"
    subject := "N/A"
    question_raw := "What is 7x8?"
    question_type := some "Text"
    question_path_or_text := some "What is 7x8?"
    answer_image_paths := ["data/q1/a.png"]
    num_answer_images := 1
    category_scores := none
    total_score := 0
    error_message := some "Failed to parse scores from GPT response." }

/-- Witness for C5: on a concrete completed run, the single produced entry
satisfies the total-score invariant. -/
theorem total_score_invariant_witness :
    scoresObjOnly envHappy ∧
      ∀ e ∈ [entryHappy], (e.category_scores = none → e.total_score = 0) ∧
        (∀ v, e.category_scores = some v →
          ∃ fields, v = JsonVal.obj fields ∧ pySumValues fields = some e.total_score) := by
  have hobj : scoresObjOnly envHappy := by
    intro s v h; exact absurd h (by simp [envHappy])
  have hrun : runLoop envHappy "data" [itemGood] = .ok [entryHappy] := rfl
  exact ⟨hobj, total_score_invariant envHappy "data" hobj [itemGood] [entryHappy] hrun⟩

/-- C6. The resolved AnswerSet has exactly one element per image file in the
directory listing, contains only joined names with a recognized image
extension, and is sorted ascending; every appended entry whose folder exists
carries exactly this list. -/
theorem answer_set_resolution (env : Env) (folder d : String) (item : QuestionItem)
    (qid qc : String) :
    ((resolveAnswerImages env folder).length =
        ((env.listdir folder).filter hasImageExt).length ∧
      List.Sorted (· ≤ ·) (resolveAnswerImages env folder) ∧
      (∀ p ∈ resolveAnswerImages env folder, ∃ f, f ∈ env.listdir folder ∧
        hasImageExt f = true ∧ p = pathJoin folder f)) ∧
    (∀ e, item.id = some qid → item.question = some qc → ¬(qid = "" ∨ qc = "") →
      env.isdir (pathJoin d qid) = true →
      processItem env d item = .ok (some e) →
      e.answer_image_paths = resolveAnswerImages env (pathJoin d qid)) := by
  constructor
  · refine ⟨?_, ?_, ?_⟩
    · simp [resolveAnswerImages]
    · exact List.sorted_insertionSort _ _
    · intro p hp
      rw [resolveAnswerImages, List.mem_insertionSort] at hp
      obtain ⟨f, hf, rfl⟩ := List.mem_map.mp hp
      obtain ⟨hfl, hfe⟩ := List.mem_filter.mp hf
      exact ⟨f, hfl, hfe, rfl⟩
  · intro e hid hq hne hdir hpe
    rcases processItem_shape env d item with ⟨hfalse, -⟩ |
      ⟨qid', qc', subj, hid', hq', -, -, hbr⟩
    · rw [validItem_eq_true item qid qc hid hq hne] at hfalse; cases hfalse
    · rw [hid] at hid'
      rw [hq] at hq'
      obtain rfl : qid = qid' := Option.some.inj hid'
      obtain rfl : qc = qc' := Option.some.inj hq'
      rcases hbr with ⟨hd, -⟩ | ⟨-, hf, heq⟩ | ⟨-, -, -, -, heq⟩ | ⟨-, -, -, -, heq⟩ |
        ⟨-, -, -, heq⟩
      · rw [hdir] at hd; cases hd
      · rw [heq] at hpe
        simp only [Except.ok.injEq, Option.some.injEq] at hpe
        subst hpe
        simp [entryWithFiles, mkBaseEntry, hf]
      · rw [heq] at hpe
        simp only [Except.ok.injEq, Option.some.injEq] at hpe
        subst hpe
        rfl
      · rw [heq] at hpe
        cases hap : applyOutcome (imageEntry env d qid qc subj)
            (imageEval env d qid qc).scores (imageEval env d qid qc).err with
        | error m => rw [hap] at hpe; exact absurd hpe (by simp [Except.map])
        | ok e2 =>
          rw [hap] at hpe
          simp only [Except.map, Except.ok.injEq, Option.some.injEq] at hpe
          subst hpe
          obtain ⟨-, -, -, -, -, hpaths, -⟩ := applyOutcome_preserves _ _ _ _ hap
          rw [hpaths]; rfl
      · rw [heq] at hpe
        cases hap : applyOutcome (textEntry env d qid qc subj)
            (textEval env d qid qc).scores (textEval env d qid qc).err with
        | error m => rw [hap] at hpe; exact absurd hpe (by simp [Except.map])
        | ok e2 =>
          rw [hap] at hpe
          simp only [Except.map, Except.ok.injEq, Option.some.injEq] at hpe
          subst hpe
          obtain ⟨-, -, -, -, -, hpaths, -⟩ := applyOutcome_preserves _ _ _ _ hap
          rw [hpaths]; rfl

/-- Witness for C6: concrete directory with one image file; the resolved
set has length 1, is sorted, and is what the produced entry stores. -/
theorem answer_set_resolution_witness :
    ((resolveAnswerImages envHappy "data/q1").length =
        ((envHappy.listdir "data/q1").filter hasImageExt).length ∧
      List.Sorted (· ≤ ·) (resolveAnswerImages envHappy "data/q1")) ∧
    entryHappy.answer_image_paths = resolveAnswerImages envHappy (pathJoin "data" "q1") := by
  obtain ⟨⟨h1, h2, -⟩, hlink⟩ :=
    answer_set_resolution envHappy "data/q1" "data" itemGood "q1" "What is 7x8?"
  exact ⟨⟨h1, h2⟩, hlink entryHappy rfl rfl (by decide) rfl rfl⟩

/-- C7. A valid record whose answer folder is missing, or exists but holds no
image file, still yields exactly one appended entry with null
`category_scores` and the corresponding non-null error message, and the loop
continues; an invalid record (missing or empty id or question) is skipped
with no entry at all. -/
theorem missing_answers_recorded (env : Env) (d : String) (item : QuestionItem)
    (qid qc : String) :
    (item.id = some qid → item.question = some qc → ¬(qid = "" ∨ qc = "") →
      ((env.isdir (pathJoin d qid) = false →
         ∃ e, processItem env d item = .ok (some e) ∧ e.category_scores = none ∧
           e.error_message = some "Answer folder not found." ∧
           ∀ rest, runLoop env d (item :: rest) = (runLoop env d rest).map (e :: ·)) ∧
       (env.isdir (pathJoin d qid) = true →
         resolveAnswerImages env (pathJoin d qid) = [] →
         ∃ e, processItem env d item = .ok (some e) ∧ e.category_scores = none ∧
           e.error_message = some "No answer images found." ∧
           ∀ rest, runLoop env d (item :: rest) = (runLoop env d rest).map (e :: ·)))) ∧
    (validItem item = false →
      processItem env d item = .ok none ∧
      ∀ rest, runLoop env d (item :: rest) = runLoop env d rest) := by
  constructor
  · intro hid hq hne
    rcases processItem_shape env d item with ⟨hfalse, -⟩ |
      ⟨qid', qc', subj, hid', hq', -, -, hbr⟩
    · rw [validItem_eq_true item qid qc hid hq hne] at hfalse; cases hfalse
    · rw [hid] at hid'
      rw [hq] at hq'
      obtain rfl : qid = qid' := Option.some.inj hid'
      obtain rfl : qc = qc' := Option.some.inj hq'
      constructor
      · intro hdir
        rcases hbr with ⟨-, heq⟩ | ⟨hd, -, -⟩ | ⟨hd, -, -, -, -⟩ | ⟨hd, -, -, -, -⟩ |
          ⟨hd, -, -, -⟩
        · exact ⟨_, heq, rfl, rfl, fun rest => runLoop_cons_entry env d item rest _ heq⟩
        · rw [hdir] at hd; cases hd
        · rw [hdir] at hd; cases hd
        · rw [hdir] at hd; cases hd
        · rw [hdir] at hd; cases hd
      · intro hdir hempty
        rcases hbr with ⟨hd, -⟩ | ⟨-, -, heq⟩ | ⟨-, hne2, -, -, -⟩ | ⟨-, hne2, -, -, -⟩ |
          ⟨-, hne2, -, -⟩
        · rw [hdir] at hd; cases hd
        · refine ⟨_, heq, rfl, rfl, fun rest => runLoop_cons_entry env d item rest _ heq⟩
        · exact absurd hempty hne2
        · exact absurd hempty hne2
        · exact absurd hempty hne2
  · intro hinvalid
    have hskip := processItem_of_invalid env d item hinvalid
    exact ⟨hskip, fun rest => runLoop_cons_skip env d item rest hskip⟩

/-- Environment whose answer directories never exist. -/
def envNoDir : Env := { envHappy with isdir := fun _ => false }

/-- Witness for C7: missing answer folder yields an entry with null scores
and the folder error, and the loop continues; the id-less record is
skipped. -/
theorem missing_answers_recorded_witness :
    (∃ e, processItem envNoDir "data" itemGood = .ok (some e) ∧
      e.category_scores = none ∧ e.error_message = some "Answer folder not found." ∧
      ∀ rest, runLoop envNoDir "data" (itemGood :: rest) =
        (runLoop envNoDir "data" rest).map (e :: ·)) ∧
    processItem envNoDir "data" itemBad = .ok none := by
  obtain ⟨hvalid, hinvalid⟩ :=
    missing_answers_recorded envNoDir "data" itemGood "q1" "What is 7x8?"
  obtain ⟨hnof, -⟩ := hvalid rfl rfl (by decide)
  refine ⟨hnof rfl, ?_⟩
  exact ((missing_answers_recorded envNoDir "data" itemBad "x" "y").2 rfl).1

/-- C9. Entries recorded for a missing or empty answer directory keep
`question_type` and `question_path_or_text` null and `answer_image_paths`
empty; in the missing-directory case `num_answer_images` is 0. -/
theorem missing_answers_frame (env : Env) (d : String) (item : QuestionItem)
    (qid qc : String) (hid : item.id = some qid) (hq : item.question = some qc)
    (hne : ¬(qid = "" ∨ qc = "")) :
    (env.isdir (pathJoin d qid) = false →
       ∃ e, processItem env d item = .ok (some e) ∧ e.question_type = none ∧
         e.question_path_or_text = none ∧ e.answer_image_paths = [] ∧
         e.num_answer_images = 0) ∧
    (env.isdir (pathJoin d qid) = true → resolveAnswerImages env (pathJoin d qid) = [] →
       ∃ e, processItem env d item = .ok (some e) ∧ e.question_type = none ∧
         e.question_path_or_text = none ∧ e.answer_image_paths = []) := by
  rcases processItem_shape env d item with ⟨hfalse, -⟩ |
    ⟨qid', qc', subj, hid', hq', -, -, hbr⟩
  · rw [validItem_eq_true item qid qc hid hq hne] at hfalse; cases hfalse
  · rw [hid] at hid'
    rw [hq] at hq'
    obtain rfl : qid = qid' := Option.some.inj hid'
    obtain rfl : qc = qc' := Option.some.inj hq'
    constructor
    · intro hdir
      rcases hbr with ⟨-, heq⟩ | ⟨hd, -, -⟩ | ⟨hd, -, -, -, -⟩ | ⟨hd, -, -, -, -⟩ |
        ⟨hd, -, -, -⟩
      · exact ⟨_, heq, rfl, rfl, rfl, rfl⟩
      · rw [hdir] at hd; cases hd
      · rw [hdir] at hd; cases hd
      · rw [hdir] at hd; cases hd
      · rw [hdir] at hd; cases hd
    · intro hdir hempty
      rcases hbr with ⟨hd, -⟩ | ⟨-, -, heq⟩ | ⟨-, hne2, -, -, -⟩ | ⟨-, hne2, -, -, -⟩ |
        ⟨-, hne2, -, -⟩
      · rw [hdir] at hd; cases hd
      · refine ⟨_, heq, rfl, rfl, ?_⟩
        simp [entryWithFiles, mkBaseEntry, hempty]
      · exact absurd hempty hne2
      · exact absurd hempty hne2
      · exact absurd hempty hne2

/-- Witness for C9: the concrete missing-folder entry keeps the modality
fields null and the answer set empty. -/
theorem missing_answers_frame_witness :
    ∃ e, processItem envNoDir "data" itemGood = .ok (some e) ∧ e.question_type = none ∧
      e.question_path_or_text = none ∧ e.answer_image_paths = [] ∧
      e.num_answer_images = 0 :=
  (missing_answers_frame envNoDir "data" itemGood "q1" "What is 7x8?" rfl rfl
    (by decide)).1 rfl

/-- The `.gif` extension as lowercase chars. -/
def gifExt : List Char := ['.', 'g', 'i', 'f']

/-- The `.bmp` extension as lowercase chars. -/
def bmpExt : List Char := ['.', 'b', 'm', 'p']

/-- Two mutually non-suffix strings cannot both be suffixes of the same
string. -/
theorem suffix_excl (a b s : List Char) (hab : a.isSuffixOf b = false)
    (hba : b.isSuffixOf a = false) (ha : a.isSuffixOf s = true) :
    b.isSuffixOf s = false := by
  cases hb : b.isSuffixOf s with
  | false => rfl
  | true =>
    exfalso
    have ha2 : a <:+ s := List.isSuffixOf_iff_suffix.mp ha
    have hb2 : b <:+ s := List.isSuffixOf_iff_suffix.mp hb
    rcases List.suffix_or_suffix_of_suffix ha2 hb2 with h | h
    · simp [List.isSuffixOf_iff_suffix.mpr h] at hab
    · simp [List.isSuffixOf_iff_suffix.mpr h] at hba

/-- A `.gif` or `.bmp` name passes the answer-image filter. -/
theorem hasImageExt_of_gif_bmp (f : String)
    (h : gifExt.isSuffixOf (lowerChars f) = true ∨
      bmpExt.isSuffixOf (lowerChars f) = true) :
    hasImageExt f = true := by
  unfold hasImageExt
  apply List.any_eq_true.mpr
  rcases h with h | h
  · exact ⟨gifExt, by decide, h⟩
  · exact ⟨bmpExt, by decide, h⟩

/-- A `.gif` or `.bmp` name fails the question-image classification test. -/
theorem not_imageQuestion_of_gif_bmp (q : String)
    (h : gifExt.isSuffixOf (lowerChars q) = true ∨
      bmpExt.isSuffixOf (lowerChars q) = true) :
    isImageQuestionStr q = false := by
  have hpng : (['.', 'p', 'n', 'g'] : List Char).isSuffixOf (lowerChars q) = false := by
    rcases h with h | h
    · exact suffix_excl gifExt _ _ (by decide) (by decide) h
    · exact suffix_excl bmpExt _ _ (by decide) (by decide) h
  have hjpg : (['.', 'j', 'p', 'g'] : List Char).isSuffixOf (lowerChars q) = false := by
    rcases h with h | h
    · exact suffix_excl gifExt _ _ (by decide) (by decide) h
    · exact suffix_excl bmpExt _ _ (by decide) (by decide) h
  have hjpeg : (['.', 'j', 'p', 'e', 'g'] : List Char).isSuffixOf (lowerChars q) = false := by
    rcases h with h | h
    · exact suffix_excl gifExt _ _ (by decide) (by decide) h
    · exact suffix_excl bmpExt _ _ (by decide) (by decide) h
  simp [isImageQuestionStr, QUESTION_IMAGE_EXTS, hpng, hjpg, hjpeg]

/-- C10. The question-classification extension set is strictly smaller than
the answer-filter set: a `.gif`/`.bmp` name is accepted as an answer image,
yet a question ending in `.gif`/`.bmp` is always classified `Text`,
regardless of file existence. -/
theorem gif_bmp_extension_asymmetry :
    (∀ f : String, gifExt.isSuffixOf (lowerChars f) = true ∨
        bmpExt.isSuffixOf (lowerChars f) = true → hasImageExt f = true) ∧
    (∀ q : String, gifExt.isSuffixOf (lowerChars q) = true ∨
        bmpExt.isSuffixOf (lowerChars q) = true → isImageQuestionStr q = false) ∧
    (∀ (env : Env) (d : String) (item : QuestionItem) (qid qc : String),
      sumSafe env → item.id = some qid → item.question = some qc →
      ¬(qid = "" ∨ qc = "") → env.isdir (pathJoin d qid) = true →
      resolveAnswerImages env (pathJoin d qid) ≠ [] →
      (gifExt.isSuffixOf (lowerChars qc) = true ∨
        bmpExt.isSuffixOf (lowerChars qc) = true) →
      ∃ e, processItem env d item = .ok (some e) ∧ e.question_type = some "Text") := by
  refine ⟨hasImageExt_of_gif_bmp, not_imageQuestion_of_gif_bmp, ?_⟩
  intro env d item qid qc Hs hid hq hne hdir hfiles hsuf
  have himg := not_imageQuestion_of_gif_bmp qc hsuf
  obtain ⟨e, h1, h2, -, -, -, -⟩ :=
    processItem_qtype env d item qid qc Hs hid hq hne hdir hfiles
  refine ⟨e, h1, ?_⟩
  rw [h2]
  simp [himg]

/-- A record whose question text names a gif file. -/
def itemGif : QuestionItem := ⟨some "q1", some "anim.gif", none⟩

/-- Witness for C10: `anim.gif` passes the answer filter, fails the question
test, and its record is classified `Text`. -/
theorem gif_bmp_extension_asymmetry_witness :
    hasImageExt "anim.gif" = true ∧
      isImageQuestionStr "anim.gif" = false ∧
      ∃ e, processItem envHappy "data" itemGif = .ok (some e) ∧
        e.question_type = some "Text" := by
  have hsuf : gifExt.isSuffixOf (lowerChars "anim.gif") = true ∨
      bmpExt.isSuffixOf (lowerChars "anim.gif") = true := Or.inl (by decide)
  have hs : sumSafe envHappy := by
    intro s f h; exact absurd h (by simp [envHappy])
  exact ⟨gif_bmp_extension_asymmetry.1 "anim.gif" hsuf,
    gif_bmp_extension_asymmetry.2.1 "anim.gif" hsuf,
    gif_bmp_extension_asymmetry.2.2 envHappy "data" itemGif "q1" "anim.gif" hs rfl rfl
      (by decide) rfl (by decide) hsuf⟩
